import Mathlib

/-!
Shallow embedding of the `sinta-scraper` pipeline
(`src/sinta/author.py`, `src/sinta/department.py`) and proofs of the
spec's claims about it.

Conventions of the embedding:
* HTML pages are modelled by structures holding exactly the pieces of
  markup the Python code selects (CSS-selector results become lists of
  tags; `select_one` results become `Option`s).
* A network fetch is an environment function `Identifier → Option Page`;
  `none` models a network error / unusable response.
* Python code that can raise is embedded in `Option`/`Except`; list
  indexing `xs[i]` becomes `List.get?` so that an out-of-range index
  becomes a failure, matching Python's `IndexError`.
* Helper functions from `util/utils.py`, `util/config.py` and
  `sinta/affil.py` are not part of `src/`; each such definition carries a
  doc comment starting with `Modelled from the spec:`.
-/

namespace Sinta

/-- A dynamically-typed Python value, as appearing in the result records:
strings, integers (from `cast`), `None`, lists, and nested dicts. -/
inductive Value where
  | str : String → Value
  | int : Int → Value
  | vnone : Value
  | list : List Value → Value
  | dict : List (String × Value) → Value
deriving Repr

/-- A result record: a Python dict from field name to value, modelled as
an association list preserving insertion order. -/
abbrev Record := List (String × Value)

/-- Dict lookup, `record["k"]`-style access (first binding wins, as in a
Python dict built without key collisions). -/
def Record.lookup (r : Record) (k : String) : Option Value :=
  List.lookup k r

/-!
Character-list implementations of the string primitives the Python code
uses (`str.strip`, `str.split`, `str.lower`, `int(...)`, `in`).  They are
structurally recursive so that every definition in this file evaluates
inside the kernel; each mirrors the Python primitive's behaviour on the
inputs that occur here.
-/

/-- Whitespace test used by `strip` (the ASCII whitespace characters). -/
def isSpaceChar (c : Char) : Bool :=
  c = ' ' || c = '\t' || c = '\n' || c = '\r'

/-- Python `str.strip()`: drop leading and trailing whitespace. -/
def strTrim (s : String) : String :=
  String.mk (((s.toList.dropWhile isSpaceChar).reverse.dropWhile isSpaceChar).reverse)

/-- Splits a character list on a one-character separator, keeping empty
groups, as Python `str.split(sep)` does. -/
def splitOnChar (sep : Char) : List Char → List (List Char)
  | [] => [[]]
  | c :: cs =>
    if c = sep then [] :: splitOnChar sep cs
    else
      match splitOnChar sep cs with
      | [] => [[c]]
      | g :: gs => (c :: g) :: gs

/-- Python `str.split(sep)` for a one-character separator (the only kind
the source uses: `"/"`, `" "`, `"?"`, `"#"`, `"&"`, `"="`). -/
def strSplit (s : String) (sep : Char) : List String :=
  (splitOnChar sep s.toList).map String.mk

/-- Lower-cases one ASCII character, as `str.lower` does on the URLs
appearing here. -/
def lowerChar (c : Char) : Char :=
  if 'A' ≤ c && c ≤ 'Z' then Char.ofNat (c.toNat + 32) else c

/-- Python `str.lower()`. -/
def strLower (s : String) : String :=
  String.mk (s.toList.map lowerChar)

/-- Numeric value of a decimal digit character. -/
def digitVal (c : Char) : Option Nat :=
  if '0' ≤ c && c ≤ '9' then some (c.toNat - 48) else none

/-- Folds decimal digits left to right; fails on any non-digit. -/
def natOfCharsAux (acc : Nat) : List Char → Option Nat
  | [] => some acc
  | c :: cs =>
    match digitVal c with
    | none => none
    | some d => natOfCharsAux (acc * 10 + d) cs

/-- Python `int(s)` on the strings occurring here: an optional sign
followed by at least one decimal digit. -/
def strToInt (s : String) : Option Int :=
  match s.toList with
  | [] => none
  | '-' :: c :: cs => (natOfCharsAux 0 (c :: cs)).map (fun n => -(n : Int))
  | '+' :: c :: cs => (natOfCharsAux 0 (c :: cs)).map (fun n => (n : Int))
  | c :: cs => (natOfCharsAux 0 (c :: cs)).map (fun n => (n : Int))

/-- Joins strings with a separator (the numpy-array rendering helper). -/
def strJoin (sep : String) : List String → String
  | [] => ""
  | [x] => x
  | x :: y :: t => x ++ sep ++ strJoin sep (y :: t)

/-- Modelled from the spec: `util.utils.cast` (not under `src/`) coerces
numeric-looking text to numbers and leaves other text unchanged. -/
def cast (s : String) : Value :=
  match strToInt s with
  | some n => Value.int n
  | none => Value.str s

/-- Modelled from the spec: `util.utils.listify` (not under `src/`)
coerces a single identifier into a one-element sequence; on an
already-listed input it is the identity, which is the only case reachable
in this embedding where inputs are lists. -/
def listify {α : Type} (xs : List α) : List α := xs

/-- Modelled from the spec: `util.utils.run_thread` (not under `src/`),
the concurrent dispatcher. It launches one worker per identifier, each
appending its result (or nothing, on failure) to a shared accumulator,
and joins before returning.  The accumulator is modelled as the list of
per-identifier outcomes in input order - a deterministic order consistent
with the spec, which requires reproducibility but no particular order. -/
def run_thread {α : Type} (w : α → Option Record) (ids : List α) :
    List (Option Record) :=
  ids.map w

/-- Modelled from the spec: `util.utils.compact_list` (not under `src/`)
removes null/failed contributions from the accumulator. -/
def compact_list (xs : List (Option Record)) : List Record :=
  xs.filterMap id

/-- The three caller-facing output shapes of the formatter. -/
inductive Formatted where
  | single : Record → Formatted
  | recs : List Record → Formatted
  | table : List Record → Formatted
deriving Repr

/-- Modelled from the spec: `util.utils.format_output` (not under
`src/`): mode `"dict"` unwraps a single record and otherwise returns the
list; `"list"` always returns the sequence; `"dataframe"` returns a
tabular shape; any other mode is a fatal configuration error. -/
def format_output (records : List Record) (mode : String) :
    Except String Formatted :=
  if mode = "dict" then
    match records with
    | [r] => Except.ok (Formatted.single r)
    | rs => Except.ok (Formatted.recs rs)
  else if mode = "list" then
    Except.ok (Formatted.recs records)
  else if mode = "dataframe" then
    Except.ok (Formatted.table records)
  else
    Except.error "unrecognized output format"

/-! ## Author pages (`src/sinta/author.py`) -/

/-- An anchor tag as used by the author parser: its text and `href`. -/
structure ATag where
  text : String
  href : String
deriving Repr, DecidableEq

/-- The pieces of an author profile page that `worker` in
`src/sinta/author.py` selects. -/
structure AuthorPage where
  /-- Result of `soup.select("h3 > a")`. -/
  h3_a : List ATag
  /-- Result of `soup.select(".meta-profile a")`. -/
  meta_profile : List ATag
  /-- Texts of `soup.select(".subject-list a")`. -/
  subject_list : List String
  /-- Texts of `soup.select(".stat-profile .pr-num")`. -/
  pr_num : List String
  /-- Cell texts of each row of `soup.select(".stat-table > tbody > tr")`. -/
  stat_rows : List (List String)
  /-- Source URL of the `img` with `alt="avatar"`, when present. -/
  avatar : Option String
deriving Repr

/-- Embeds `get_user_id` from `src/sinta/author.py`: extract the `user` query
parameter of a URL.  A `none` URL behaves like the empty string (as
`urllib.parse.urlparse(None)` coerces `None` to `""`), yielding no
parameter. -/
def get_user_id (url : Option String) : Option String :=
  match url with
  | none => none
  | some u =>
    match strSplit u '?' with
    | _ :: q :: _ =>
      let q := (strSplit q '#').headD ""
      let pairs := (strSplit q '&').filterMap (fun kv =>
        match strSplit kv '=' with
        | k :: v :: _ => some (k, v)
        | _ => none)
      List.lookup "user" pairs
    | _ => none

/-- The four score names of `src/sinta/author.py`, line 40. -/
def score_names : List String :=
  ["overall", "3_years", "affiliation", "affiliation_3_years"]

/-- The six statistic names of `src/sinta/author.py`, lines 44-51. -/
def stat_names : List String :=
  ["articles", "citations", "cited_docs", "h-index", "i10-index", "g-index"]

/-- The three indexer names of `src/sinta/author.py`, line 52. -/
def indexers : List String := ["scopus", "scholar", "wos"]

/-- One statistics row: `[cast(stat_soup[i].select("td")[j].text.strip())
for j in range(1, 4)]`; fails (IndexError) if the row has fewer than four
cells. -/
def statRow (row : List String) : Option (List Value) :=
  ([1, 2, 3] : List Nat).mapM (fun j => (row.get? j).map (fun t => cast (strTrim t)))

/-- The parsing part of `worker` in `src/sinta/author.py` (lines 31-76):
from the selected page pieces, either the full result record or `none`
when a required structural position is absent. -/
def parseAuthor (author_id : String) (url : String) (page : AuthorPage) :
    Option Record := do
  let name_tag ← page.h3_a.get? 0
  let p0 ← page.meta_profile.get? 0
  let p1 ← page.meta_profile.get? 1
  let affil_url := strTrim p0.href
  let scores_int ← ([0, 1, 2, 3] : List Nat).mapM
    (fun i => (page.pr_num.get? i).map cast)
  let stat_vals ← ([0, 1, 2, 3, 4, 5] : List Nat).mapM
    (fun i => page.stat_rows.get? i >>= statRow)
  let gsid := get_user_id page.avatar
  let base : Record :=
    [("id", Value.str author_id),
     ("name", Value.str (strTrim name_tag.text)),
     ("url", Value.str url),
     ("affiliation", Value.dict
       [("id", cast ((strSplit affil_url '/').getLastD "")),
        ("name", Value.str (strTrim p0.text)),
        ("url", Value.str affil_url)]),
     ("department", Value.str (strTrim p1.text)),
     ("subjects", Value.list (page.subject_list.map (fun s => Value.str (strTrim s)))),
     ("score", Value.dict (List.zip score_names scores_int)),
     ("image_url", match page.avatar with
       | some u => Value.str u
       | none => Value.vnone),
     ("google_scholar_id", match gsid with
       | some g => Value.str g
       | none => Value.vnone)]
  let stats := List.zip stat_names
    (stat_vals.map (fun s => Value.dict (List.zip indexers s)))
  pure (base ++ stats)

/-- Embeds `worker` from `src/sinta/author.py`: one GET for the author's profile
URL, then parse; contributes a record or nothing.  The fetch environment
maps the author id to the page, `none` modelling fetch failure.  The
`domain` comes from the injected configuration (`util.config.get_config`
is not under `src/`; the spec treats it as injected configuration). -/
def authorWorker (domain : String) (fetch : String → Option AuthorPage)
    (author_id : String) : Option Record :=
  let url := domain ++ "/authors/profile/" ++ author_id
  match fetch author_id with
  | none => none
  | some page => parseAuthor author_id url page

/-- Number of GET requests one author worker performs: always exactly
one (`get(url)` is unconditional in `src/sinta/author.py`, line 28). -/
def authorWorkerFetches : Nat := 1

/-- Embeds `author` from `src/sinta/author.py`: listify, dispatch workers,
compact, format.  Returns the total number of GET requests performed
alongside the formatted result, to make network activity observable. -/
def author (domain : String) (fetch : String → Option AuthorPage)
    (author_ids : List String) (output_format : String) :
    Nat × Except String Formatted :=
  let ids := listify author_ids
  let result := run_thread (authorWorker domain fetch) ids
  let result := compact_list result
  (ids.length * authorWorkerFetches, format_output result output_format)

/-! ## Department enumeration crawl (`src/sinta/department.py`) -/

/-- Tests whether `sub` is a prefix of `s`, on character lists. -/
def startsWithChars : List Char → List Char → Bool
  | _, [] => true
  | [], _ :: _ => false
  | a :: as, b :: bs => a == b && startsWithChars as bs

/-- Tests whether `sub` occurs as a contiguous run inside `s`. -/
def containsChars (s sub : List Char) : Bool :=
  match s with
  | [] => startsWithChars [] sub
  | _ :: cs => startsWithChars s sub || containsChars cs sub

/-- Python's `sub in s` substring test. -/
def strContains (s sub : String) : Bool :=
  containsChars s.toList sub.toList

/-- The affiliation summary block built on every crawled page
(`src/sinta/department.py`, lines 97-104). -/
structure Affiliation where
  id : String
  code : String
  name : String
  univ_abbrev : String
  url : String
  location : String
deriving Repr, DecidableEq

/-- The `.univ-name` header block of a listing page, with each
`select_one` result an `Option` (`None` when the sub-element is absent). -/
structure UnivInfo where
  /-- Result of `univ_info.select_one("h3 a")`. -/
  h3_a : Option ATag
  /-- Text of `univ_info.select_one(".affil-abbrev")`. -/
  affil_abbrev : Option String
  /-- Text of `univ_info.select_one(".affil-loc")`. -/
  affil_loc : Option String
  /-- Text of `univ_info.select_one(".affil-code")`. -/
  affil_code : Option String
deriving Repr, DecidableEq

/-- Parsing the affiliation summary out of the header block
(`src/sinta/department.py`, lines 91-104): any missing sub-element is an
`AttributeError`, and a codex with fewer than seven space-separated words
is an `IndexError` (the code reads words 2 and 6). -/
def parseAffiliation (u : UnivInfo) : Except String Affiliation :=
  match u.h3_a, u.affil_abbrev, u.affil_loc, u.affil_code with
  | some a, some ab, some loc, some code =>
    let univ_codex := strSplit (strTrim code) ' '
    match univ_codex.get? 2, univ_codex.get? 6 with
    | some ci, some cc =>
      Except.ok
        { id := ci, code := cc, name := strTrim a.text, univ_abbrev := strTrim ab,
          url := a.href, location := strTrim loc }
    | _, _ => Except.error "IndexError: affil code has too few words"
  | _, _, _, _ => Except.error "AttributeError: univ-name sub-element missing"

/-- One `.d-item` department row of a listing page, with each
`select_one` result an `Option`. -/
structure DRow where
  /-- Result of `row.select_one(".tbl-content-name a")`. -/
  name_tag : Option ATag
  /-- Text of `row.select_one(".tbl-content-meta-num")`. -/
  code_tag : Option String
  /-- Text of `row.select_one(".col-lg-1.tbl-content-meta.mb-2")`. -/
  level_tag : Option String
deriving Repr, DecidableEq

/-- One enumeration-table row, the `department_info` dict of
`src/sinta/department.py`, lines 122-131. -/
structure DeptRow where
  department_id : String
  name : String
  level : String
  full_name : String
  url : String
  department_id_hash : String
  univ_id_hash : String
  affiliation : Affiliation
deriving Repr, DecidableEq

/-- Extraction of one department row (`src/sinta/department.py`, lines
112-132): rows whose name or code tag is missing, or that fail the
href/text filter, are skipped (`ok none`); rows passing the filter with a
missing level tag raise (`level_tag.text` on `None`), as does an href
whose lowered form has no second-to-last `/`-component. -/
def extractRow (aff : Affiliation) (r : DRow) : Except String (Option DeptRow) :=
  match r.name_tag with
  | none => Except.ok none
  | some nt =>
    match r.code_tag with
    | none => Except.ok none
    | some ct =>
      if strContains nt.href "department" && !(strContains nt.text "Authors") then
        match r.level_tag with
        | none => Except.error "AttributeError: level tag missing"
        | some lt =>
          let lurl := strLower nt.href
          let parts := strSplit lurl '/'
          if 2 ≤ parts.length then
            Except.ok (some
              { department_id := strTrim ct,
                name := strTrim nt.text,
                level := strTrim lt,
                full_name := strTrim nt.text ++ " (" ++ strTrim lt ++ ")",
                url := lurl,
                department_id_hash := parts.getLastD "",
                univ_id_hash := (parts.get? (parts.length - 2)).getD "",
                affiliation := aff })
          else Except.error "IndexError: split href too short"
      else Except.ok none

/-- Row-by-row extraction over one page's `.d-item` list, stopping at the
first raising row as the Python `for` loop would. -/
def extractRows (aff : Affiliation) (rows : List DRow) :
    Except String (List DeptRow) :=
  (rows.mapM (extractRow aff)).map (List.filterMap id)

/-- One listing page as fetched during the crawl: the header block (when
present) and the `.content-list-no-filter .d-item` rows. -/
structure DeptPage where
  univ_info : Option UnivInfo
  rows : List DRow
deriving Repr

/-- The `while True` crawl loop of `fetch_all_department`
(`src/sinta/department.py`, lines 83-135), with explicit fuel standing in
for unbounded iteration.  Arguments: fuel, current page number,
accumulated entries, pages fetched so far.  Per the source's order, each
iteration fetches the page, parses the header block (raising on a missing
or incomplete one), only then checks the rows for emptiness (the loop's
sole exit), and finally extracts the page's entries.  Returns the number
of page fetches performed alongside the outcome. -/
def crawlFrom (pages : Nat → DeptPage) :
    Nat → Nat → List DeptRow → Nat → Nat × Except String (List DeptRow)
  | 0, _, _, fc => (fc, Except.error "crawl did not terminate")
  | fuel + 1, p, acc, fc =>
    let page := pages p
    match page.univ_info with
    | none => (fc + 1, Except.error "AttributeError: univ-name block missing")
    | some u =>
      match parseAffiliation u with
      | Except.error e => (fc + 1, Except.error e)
      | Except.ok aff =>
        if page.rows.isEmpty then (fc + 1, Except.ok acc)
        else
          match extractRows aff page.rows with
          | Except.error e => (fc + 1, Except.error e)
          | Except.ok entries => crawlFrom pages fuel (p + 1) (acc ++ entries) (fc + 1)

/-- Embeds `fetch_all_department` from `src/sinta/department.py`: crawl from
page 1 with an empty accumulator.  The page environment
`pages : Nat → DeptPage` stands for fetching
`{domain}/affiliations/departments/{affiliation_id}/{affiliation_code}?page={N}`;
the preliminary `sinta.affiliation(affiliation_id)["code"]` lookup (in
`sinta/affil.py`, not under `src/`) only fixes that URL and is absorbed
into the environment. -/
def fetch_all_department (pages : Nat → DeptPage) (fuel : Nat) :
    Nat × Except String (List DeptRow) :=
  crawlFrom pages fuel 1 [] 0

/-! ## Department profile workers and the `department` entry point -/

/-- A department profile page as selected by `worker` in
`src/sinta/department.py`, lines 158-165. -/
structure DeptProfilePage where
  /-- Texts of `soup.select(".univ-name > h3")`. -/
  univ_name_h3 : List String
  /-- Texts of `soup.select(".affil-loc")`. -/
  affil_loc : List String
  /-- Result of `soup.select(".meta-profile > a")`. -/
  meta_profile_a : List ATag
deriving Repr

/-- Rendering of the `affiliation_code` value into the worker URL.  In
the source this value is the pandas `.unique()` array of univ-id hashes,
interpolated whole into the f-string; the exact numpy rendering is
abstracted as the elements joined by spaces (no claim depends on it). -/
def renderCodes (codes : List String) : String :=
  strJoin " " codes

/-- Embeds `worker` from `src/sinta/department.py`: one GET for the department
profile URL, then parse; contributes a record or nothing.  `none` from
the fetch environment models fetch failure; `none` from parsing models a
missing structural position (IndexError on an empty selection). -/
def deptWorker (domain : String) (wfetch : String → Option DeptProfilePage)
    (affiliation_id : String) (affiliation_code : List String)
    (department_id : String) : Option Record :=
  let url := domain ++ "/departments/profile/" ++ affiliation_id ++ "/" ++
    renderCodes affiliation_code ++ "/" ++ department_id
  match wfetch department_id with
  | none => none
  | some page => do
    let name ← page.univ_name_h3.get? 0
    let loc ← page.affil_loc.get? 0
    let asoup ← page.meta_profile_a.get? 0
    pure [("id", Value.str department_id),
          ("name", Value.str (strTrim name)),
          ("location", Value.str (strTrim loc)),
          ("url", Value.str url),
          ("affiliation", Value.dict
            [("id", cast ((strSplit asoup.href '/').getLastD "")),
             ("name", Value.str (strTrim asoup.text)),
             ("url", Value.str asoup.href)])]

/-- The row filter of `src/sinta/department.py`, line 52:
`df[df.department_id.isin(listify(department_ids))]`. -/
def filterSubset (df : List DeptRow) (department_ids : List String) :
    List DeptRow :=
  df.filter (fun r => (listify department_ids).contains r.department_id)

/-- Embeds pandas `.unique()`: the distinct values in first-occurrence order. -/
def uniqueFirst : List String → List String
  | [] => []
  | x :: xs => x :: uniqueFirst (xs.filter (fun y => y ≠ x))
termination_by l => l.length
decreasing_by
  simp only [List.length_cons]
  exact Nat.lt_succ_of_le (List.length_filter_le _ _)

/-- Modelled from the spec: the persisted cache directory, one JSON file
per parent key, here an association of parent key to persisted table.
Loading a persisted table returns it verbatim (no freshness check), per
the spec's read-through contract; the pandas `to_json`/`read_json`/`.T`
round trip is taken as the identity on tables. -/
abbrev CacheStore := List (String × List DeptRow)

/-- Cache lookup: does a persisted table exist for this parent key? -/
def CacheStore.load (store : CacheStore) (affiliation_id : String) :
    Option (List DeptRow) :=
  List.lookup affiliation_id store

/-- Persisting the freshly crawled table for a parent key. -/
def CacheStore.save (store : CacheStore) (affiliation_id : String)
    (df : List DeptRow) : CacheStore :=
  (affiliation_id, df) :: store

/-- Lines 50-65 of `src/sinta/department.py`: filter the table by the
caller-supplied department ids, assert the subset non-empty, dispatch one
worker per matching row keyed by its hashed id (with the unique univ-id
hashes forwarded unchanged to every worker), compact, format. -/
def departmentRest (domain : String)
    (wfetch : String → Option DeptProfilePage)
    (department_ids : List String) (affiliation_id : String)
    (output_format : String) (df : List DeptRow) : Except String Formatted :=
  let subset := filterSubset df department_ids
  if subset = [] then
    Except.error "No departments found for the given department IDs."
  else
    let hashed_department_ids := subset.map DeptRow.department_id_hash
    let hashed_univ_ids := uniqueFirst (subset.map DeptRow.univ_id_hash)
    let result := run_thread
      (deptWorker domain wfetch affiliation_id hashed_univ_ids)
      (listify hashed_department_ids)
    let result := compact_list result
    format_output result output_format

/-- Embeds `department` from `src/sinta/department.py`: on a cache hit, load the
persisted table and proceed; on a miss, crawl the full enumeration,
persist it, and proceed on the crawled table.  A crawl that returns an
empty table raises before persisting: `pd.DataFrame.from_dict([])` has
no columns, so `.set_index("department_id_hash", drop=False)` (line 44)
raises `KeyError` before `to_json` runs, and the store is left
unchanged.  Returns the possibly updated store and the number of
enumeration-page fetches performed (zero on a cache hit) alongside the
formatted result. -/
def department (domain : String) (pages : Nat → DeptPage) (fuel : Nat)
    (wfetch : String → Option DeptProfilePage)
    (department_ids : List String) (affiliation_id : String)
    (output_format : String) (store : CacheStore) :
    CacheStore × Nat × Except String Formatted :=
  match CacheStore.load store affiliation_id with
  | some df =>
    (store, 0,
      departmentRest domain wfetch department_ids affiliation_id output_format df)
  | none =>
    match fetch_all_department pages fuel with
    | (fc, Except.error e) => (store, fc, Except.error e)
    | (fc, Except.ok rows) =>
      if rows = [] then
        (store, fc, Except.error "KeyError: department_id_hash not in columns")
      else
        (CacheStore.save store affiliation_id rows, fc,
          departmentRest domain wfetch department_ids affiliation_id output_format rows)

/-- Whether a listing page's header block is present and parses
completely (the crawl raises on any fetched page where this is false). -/
def headerOk (pg : DeptPage) : Bool :=
  match pg.univ_info with
  | none => false
  | some u => (parseAffiliation u).isOk

/-- The entries one listing page contributes: header parse followed by
row extraction, with the same failure modes as one crawl iteration. -/
def pageEntries (pg : DeptPage) : Except String (List DeptRow) :=
  match pg.univ_info with
  | none => Except.error "AttributeError: univ-name block missing"
  | some u =>
    match parseAffiliation u with
    | Except.error e => Except.error e
    | Except.ok aff => extractRows aff pg.rows

/-! ## Concrete inputs used by witnesses and counterexamples -/

/-- An author profile page on which every structural position the parser
reads is present. -/
def exAuthorPage : AuthorPage :=
  { h3_a := [⟨"Jane Doe", "x"⟩],
    meta_profile :=
      [⟨"Univ A", "https://sinta.example/affiliations/profile/42"⟩,
       ⟨"Dept B", "y"⟩],
    subject_list := ["Biology"],
    pr_num := ["1", "2", "3", "4"],
    stat_rows :=
      [["z", "5", "6", "7"], ["z", "5", "6", "7"], ["z", "5", "6", "7"],
       ["z", "5", "6", "7"], ["z", "5", "6", "7"], ["z", "5", "6", "7"]],
    avatar := some "https://h/citations?user=abc&hl=en" }

/-- A fetch environment on which every author fetch succeeds. -/
def exFetchAll : String → Option AuthorPage := fun _ => some exAuthorPage

/-- A fetch environment on which only author `A1` succeeds. -/
def exFetchA1 : String → Option AuthorPage :=
  fun i => if i = "A1" then some exAuthorPage else none

/-- A complete `.univ-name` header block whose codex has seven words. -/
def exUnivInfo : UnivInfo :=
  { h3_a := some ⟨"Univ A", "https://u"⟩, affil_abbrev := some "UA",
    affil_loc := some "Town", affil_code := some "ID : 42 | Code : 77" }

/-- A department row that passes the extraction filter. -/
def exRowGood : DRow :=
  { name_tag := some ⟨"Physics", "https://s.id/departments/profile/UH/DH1"⟩,
    code_tag := some "55001", level_tag := some "S1" }

/-- A second department row that passes the extraction filter. -/
def exRowGood2 : DRow :=
  { name_tag := some ⟨"Chemistry", "https://s.id/departments/profile/UH/DH2"⟩,
    code_tag := some "55002", level_tag := some "S1" }

/-- A department row filtered out by the `"Authors" not in text` clause. -/
def exRowAuthors : DRow :=
  { name_tag := some ⟨"Authors List", "https://s.id/departments/profile/UH/DH3"⟩,
    code_tag := some "55003", level_tag := some "S1" }

/-- A three-page crawl: pages 1 and 2 carry one good row each, page 3
(and beyond) is row-free; every page has a complete header. -/
def exPages3 : Nat → DeptPage := fun p =>
  if p = 1 then { univ_info := some exUnivInfo, rows := [exRowGood] }
  else if p = 2 then { univ_info := some exUnivInfo, rows := [exRowGood2] }
  else { univ_info := some exUnivInfo, rows := [] }

/-- A crawl whose page 1 has a row (so the loop continues) but extracts
zero entries, page 2 has a good row, and page 3 is row-free. -/
def exPagesFiltered : Nat → DeptPage := fun p =>
  if p = 1 then { univ_info := some exUnivInfo, rows := [exRowAuthors] }
  else if p = 2 then { univ_info := some exUnivInfo, rows := [exRowGood] }
  else { univ_info := some exUnivInfo, rows := [] }

/-- A crawl whose very first page is row-free but lacks the header
block. -/
def exPagesNoHeader : Nat → DeptPage := fun _ =>
  { univ_info := none, rows := [] }

/-- A department profile page on which every structural position the
worker reads is present. -/
def exProfilePage : DeptProfilePage :=
  { univ_name_h3 := ["Dept Physics"],
    affil_loc := ["Town"],
    meta_profile_a := [⟨"Univ A", "https://sinta.example/affiliations/profile/42"⟩] }

/-- A worker-fetch environment on which every department fetch
succeeds. -/
def exWFetchAll : String → Option DeptProfilePage := fun _ => some exProfilePage

/-- An enumeration-table row with the given human-readable id and hashed
ids (the other fields fixed), for the row-filter examples. -/
def mkDeptRow (did hash uhash : String) : DeptRow :=
  { department_id := did, name := "N", level := "S1", full_name := "N (S1)",
    url := "https://u", department_id_hash := hash, univ_id_hash := uhash,
    affiliation :=
      { id := "42", code := "77", name := "Univ A", univ_abbrev := "UA",
        url := "https://u", location := "Town" } }

/-- The three-entry enumeration table of the spec's row-filter example. -/
def exTable3 : List DeptRow :=
  [mkDeptRow "A" "ha" "uh", mkDeptRow "B" "hb" "uh", mkDeptRow "C" "hc" "uh"]

/-- The affiliation summary that `exUnivInfo` parses to. -/
def exAffParsed : Affiliation :=
  { id := "42", code := "77", name := "Univ A", univ_abbrev := "UA",
    url := "https://u", location := "Town" }

/-- The enumeration entry extracted from `exRowGood`. -/
def exEntryGood : DeptRow :=
  { department_id := "55001", name := "Physics", level := "S1",
    full_name := "Physics (S1)",
    url := "https://s.id/departments/profile/uh/dh1",
    department_id_hash := "dh1", univ_id_hash := "uh",
    affiliation := exAffParsed }

/-- The enumeration entry extracted from `exRowGood2`. -/
def exEntryGood2 : DeptRow :=
  { department_id := "55002", name := "Chemistry", level := "S1",
    full_name := "Chemistry (S1)",
    url := "https://s.id/departments/profile/uh/dh2",
    department_id_hash := "dh2", univ_id_hash := "uh",
    affiliation := exAffParsed }

/-!
## Shared lemmas
-/

theorem authorWorker_id_eq (domain : String) (fetch : String → Option AuthorPage)
    (i : String) (r : Record) (h : authorWorker domain fetch i = some r) :
    Record.lookup r "id" = some (Value.str i) := by
  unfold authorWorker at h
  cases hf : fetch i with
  | none => rw [hf] at h; exact absurd h (by simp)
  | some page =>
    rw [hf] at h
    unfold parseAuthor at h
    simp only [bind, Option.bind_eq_some, pure, Option.some.injEq] at h
    obtain ⟨nt, hnt, p0, hp0, p1, hp1, si, hsi, sv, hsv, hr⟩ := h
    subst hr
    rfl

theorem deptWorker_id_eq (domain : String)
    (wfetch : String → Option DeptProfilePage) (aid : String)
    (codes : List String) (i : String) (r : Record)
    (h : deptWorker domain wfetch aid codes i = some r) :
    Record.lookup r "id" = some (Value.str i) := by
  unfold deptWorker at h
  cases hf : wfetch i with
  | none => rw [hf] at h; exact absurd h (by simp)
  | some page =>
    rw [hf] at h
    simp only [bind, Option.bind_eq_some, pure, Option.some.injEq] at h
    obtain ⟨n, hn, l, hl, a, ha, hr⟩ := h
    subst hr
    rfl

theorem compact_run_thread {α : Type} (w : α → Option Record) (ids : List α) :
    compact_list (run_thread w ids) = ids.filterMap w := by
  simp [compact_list, run_thread, List.filterMap_map]

theorem dispatch_map_id {α : Type} (w : α → Option Record) (g : α → Option Value)
    (hid : ∀ i r, w i = some r → Record.lookup r "id" = g i) :
    ∀ ids : List α, (∀ i ∈ ids, (w i).isSome) →
      (compact_list (run_thread w ids)).length = ids.length ∧
      (compact_list (run_thread w ids)).map (fun r => Record.lookup r "id")
        = ids.map g := by
  intro ids
  induction ids with
  | nil => intro _; exact ⟨rfl, rfl⟩
  | cons a l ih =>
    intro hsucc
    obtain ⟨r, hr⟩ := Option.isSome_iff_exists.mp (hsucc a (List.mem_cons_self a l))
    have hl := ih (fun i hi => hsucc i (List.mem_cons_of_mem a hi))
    simp only [compact_list, run_thread, List.map_cons, List.filterMap_cons, hr,
      id_eq, List.length_cons]
    simp only [compact_list, run_thread] at hl
    exact ⟨by rw [hl.1], by rw [hl.2, hid a r hr]⟩

theorem format_output_ok (records : List Record) (mode : String)
    (hmode : mode = "dict" ∨ mode = "list" ∨ mode = "dataframe") :
    ∃ out, format_output records mode = Except.ok out := by
  rcases hmode with h | h | h <;> subst h
  · unfold format_output
    rw [if_pos rfl]
    rcases records with _ | ⟨a, _ | ⟨b, t⟩⟩
    · exact ⟨_, rfl⟩
    · exact ⟨_, rfl⟩
    · exact ⟨_, rfl⟩
  · exact ⟨_, rfl⟩
  · exact ⟨_, rfl⟩

/-!
## Claims
-/

/-- C7: with mode `"dict"` the formatter returns the bare record
unwrapped when the compacted list has exactly one element and the full
list otherwise; with mode `"list"` it always returns the sequence, even
at length 1. -/
theorem claim_C7_output_formatter (r : Record) (rs : List Record)
    (h : rs.length ≠ 1) :
    format_output [r] "dict" = Except.ok (Formatted.single r)
    ∧ format_output rs "dict" = Except.ok (Formatted.recs rs)
    ∧ ∀ xs : List Record, format_output xs "list" = Except.ok (Formatted.recs xs) := by
  refine ⟨rfl, ?_, fun xs => rfl⟩
  unfold format_output
  rw [if_pos rfl]
  rcases rs with _ | ⟨a, _ | ⟨b, t⟩⟩
  · rfl
  · exact absurd rfl h
  · rfl

theorem claim_C7_output_formatter_witness :
    ([] : List Record).length ≠ 1
    ∧ (format_output [[("id", Value.str "A1")]] "dict"
         = Except.ok (Formatted.single [("id", Value.str "A1")])
       ∧ format_output ([] : List Record) "dict" = Except.ok (Formatted.recs [])
       ∧ ∀ xs : List Record,
           format_output xs "list" = Except.ok (Formatted.recs xs)) :=
  ⟨by decide, claim_C7_output_formatter [("id", Value.str "A1")] [] (by decide)⟩

/-- C6 (counterexample): with one identifier and the unrecognized mode
`"bogus"`, the batch call performs one worker fetch (not zero) before the
configuration error surfaces — the mode is only inspected by the
formatter, which runs after the dispatch. -/
theorem claim_C6_counterexample :
    (author "https://sinta.example" exFetchAll ["A1"] "bogus").1 = 1
    ∧ (author "https://sinta.example" exFetchAll ["A1"] "bogus").2
        = Except.error "unrecognized output format" :=
  ⟨rfl, rfl⟩

/-- C6 (amended): an unrecognized output-format mode does raise a fatal
configuration error, but only after the network work has completed: the
mode is inspected only by the formatter, which runs last, so the author
entry point performs one fetch per identifier, and the hierarchical
entry point performs the full enumeration crawl, before the error
surfaces. -/
theorem claim_C6_amended (domain : String) (fetch : String → Option AuthorPage)
    (ids : List String) (pages : Nat → DeptPage) (fuel : Nat)
    (wfetch : String → Option DeptProfilePage) (dids : List String)
    (aff : String) (store : CacheStore) (rows : List DeptRow) (fc : Nat)
    (mode : String)
    (h1 : mode ≠ "dict") (h2 : mode ≠ "list") (h3 : mode ≠ "dataframe")
    (hmiss : CacheStore.load store aff = none)
    (hcrawl : fetch_all_department pages fuel = (fc, Except.ok rows))
    (hrows : rows ≠ []) (hsub : ¬(filterSubset rows dids = [])) :
    ((author domain fetch ids mode).1 = ids.length
     ∧ (author domain fetch ids mode).2
         = Except.error "unrecognized output format")
    ∧ ((department domain pages fuel wfetch dids aff mode store).2.1 = fc
       ∧ (department domain pages fuel wfetch dids aff mode store).2.2
           = Except.error "unrecognized output format") := by
  constructor
  · constructor
    · exact Nat.mul_one _
    · show format_output _ mode = _
      unfold format_output
      rw [if_neg h1, if_neg h2, if_neg h3]
  · have hd : department domain pages fuel wfetch dids aff mode store
        = (CacheStore.save store aff rows, fc,
           departmentRest domain wfetch dids aff mode rows) := by
      unfold department
      simp only [hmiss, hcrawl]
      rw [if_neg hrows]
    rw [hd]
    refine ⟨rfl, ?_⟩
    show departmentRest domain wfetch dids aff mode rows = _
    unfold departmentRest
    rw [if_neg hsub]
    show format_output _ mode = _
    unfold format_output
    rw [if_neg h1, if_neg h2, if_neg h3]

theorem claim_C6_amended_witness :
    ("bogus" ≠ "dict" ∧ "bogus" ≠ "list" ∧ "bogus" ≠ "dataframe"
     ∧ CacheStore.load [] "AF1" = none
     ∧ fetch_all_department exPages3 10 = (3, Except.ok [exEntryGood, exEntryGood2])
     ∧ ([exEntryGood, exEntryGood2] : List DeptRow) ≠ []
     ∧ ¬(filterSubset [exEntryGood, exEntryGood2] ["55001"] = []))
    ∧ (((author "https://sinta.example" exFetchAll ["A1", "A2"] "bogus").1 = 2
        ∧ (author "https://sinta.example" exFetchAll ["A1", "A2"] "bogus").2
            = Except.error "unrecognized output format")
       ∧ ((department "https://sinta.example" exPages3 10 exWFetchAll ["55001"]
             "AF1" "bogus" []).2.1 = 3
          ∧ (department "https://sinta.example" exPages3 10 exWFetchAll ["55001"]
               "AF1" "bogus" []).2.2
              = Except.error "unrecognized output format")) :=
  ⟨⟨by decide, by decide, by decide, rfl, rfl, by decide, by decide⟩,
    claim_C6_amended "https://sinta.example" exFetchAll ["A1", "A2"] exPages3 10
      exWFetchAll ["55001"] "AF1" [] [exEntryGood, exEntryGood2] 3 "bogus"
      (by decide) (by decide) (by decide) rfl rfl (by decide) (by decide)⟩

/-- C2: whichever subset of workers fails (fetch failure or missing
structural position), the batch call returns without raising for every
recognized mode, and the compacted result is exactly the succeeding
subset's records, each failed identifier contributing nothing. -/
theorem claim_C2_failure_isolation (domain : String)
    (fetch : String → Option AuthorPage) (ids : List String) (mode : String)
    (hmode : mode = "dict" ∨ mode = "list" ∨ mode = "dataframe") :
    (∃ out, (author domain fetch ids mode).2 = Except.ok out)
    ∧ compact_list (run_thread (authorWorker domain fetch) ids)
        = ids.filterMap (authorWorker domain fetch) := by
  constructor
  · exact format_output_ok _ mode hmode
  · exact compact_run_thread _ _

theorem claim_C2_failure_isolation_witness :
    ("list" = "dict" ∨ "list" = "list" ∨ "list" = "dataframe")
    ∧ ((∃ out, (author "https://sinta.example" exFetchA1 ["A1", "A2"] "list").2
          = Except.ok out)
       ∧ compact_list (run_thread (authorWorker "https://sinta.example" exFetchA1)
             ["A1", "A2"])
           = ["A1", "A2"].filterMap (authorWorker "https://sinta.example" exFetchA1)) :=
  ⟨Or.inr (Or.inl rfl),
    claim_C2_failure_isolation "https://sinta.example" exFetchA1 ["A1", "A2"]
      "list" (Or.inr (Or.inl rfl))⟩

theorem crawlFrom_run (pages : Nat → DeptPage) :
    ∀ (d p fuel : Nat) (acc : List DeptRow) (fc : Nat), d < fuel →
      (∀ q, p ≤ q → q < p + d →
        (pages q).rows ≠ [] ∧ (pageEntries (pages q)).isOk = true) →
      (pages (p + d)).rows = [] →
      headerOk (pages (p + d)) = true →
      crawlFrom pages fuel p acc fc
        = (fc + d + 1, Except.ok (acc ++ (List.range' p d).flatMap
            (fun q => (pageEntries (pages q)).toOption.getD []))) := by
  intro d
  induction d with
  | zero =>
    intro p fuel acc fc hfuel hmid hempty hhdr
    cases fuel with
    | zero => omega
    | succ fuel =>
      rw [Nat.add_zero] at hempty hhdr
      unfold headerOk at hhdr
      cases huniv : (pages p).univ_info with
      | none => rw [huniv] at hhdr; exact Bool.noConfusion hhdr
      | some u =>
        rw [huniv] at hhdr
        have hhdr2 : (parseAffiliation u).isOk = true := hhdr
        cases hpa : parseAffiliation u with
        | error e => rw [hpa] at hhdr2; exact Bool.noConfusion hhdr2
        | ok aff =>
          simp only [crawlFrom, huniv, hpa]
          simp [hempty]
  | succ d ih =>
    intro p fuel acc fc hfuel hmid hempty hhdr
    cases fuel with
    | zero => omega
    | succ fuel =>
      obtain ⟨hrows, hok⟩ := hmid p (Nat.le_refl p) (by omega)
      unfold pageEntries at hok
      cases huniv : (pages p).univ_info with
      | none => rw [huniv] at hok; exact Bool.noConfusion hok
      | some u =>
        rw [huniv] at hok
        have hok2 : ((match parseAffiliation u with
          | Except.error e => Except.error e
          | Except.ok aff => extractRows aff (pages p).rows
            : Except String (List DeptRow))).isOk = true := hok
        cases hpa : parseAffiliation u with
        | error e => rw [hpa] at hok2; exact Bool.noConfusion hok2
        | ok aff =>
          rw [hpa] at hok2
          have hok3 : (extractRows aff (pages p).rows).isOk = true := hok2
          cases hex : extractRows aff (pages p).rows with
          | error e => rw [hex] at hok3; exact Bool.noConfusion hok3
          | ok entries =>
            have hne : (pages p).rows.isEmpty = false := by
              cases hr : (pages p).rows with
              | nil => exact absurd hr hrows
              | cons x xs => rfl
            simp only [crawlFrom, huniv, hpa, hne, hex, Bool.false_eq_true,
              if_false]
            rw [ih (p + 1) fuel (acc ++ entries) (fc + 1) (by omega)
              (fun q h1 h2 => hmid q (by omega) (by omega))
              (by have h : p + 1 + d = p + (d + 1) := by omega
                  rw [h]; exact hempty)
              (by have h : p + 1 + d = p + (d + 1) := by omega
                  rw [h]; exact hhdr)]
            have hpe : pageEntries (pages p) = Except.ok entries := by
              unfold pageEntries
              rw [huniv]
              show (match parseAffiliation u with
                | Except.error e => Except.error e
                | Except.ok a => extractRows a (pages p).rows) = Except.ok entries
              rw [hpa]
              exact hex
            congr 1
            · omega
            · rw [List.range'_succ]
              simp [hpe, Except.toOption, List.append_assoc]

theorem crawlFrom_header_fail (pages : Nat → DeptPage) :
    ∀ (d p fuel : Nat) (acc : List DeptRow) (fc : Nat),
      (∀ q, p ≤ q → q < p + d → (pages q).rows ≠ []) →
      headerOk (pages (p + d)) = false →
      ((crawlFrom pages fuel p acc fc).2).isOk = false := by
  intro d
  induction d with
  | zero =>
    intro p fuel acc fc hmid hhdr
    cases fuel with
    | zero => rfl
    | succ fuel =>
      rw [Nat.add_zero] at hhdr
      unfold headerOk at hhdr
      cases huniv : (pages p).univ_info with
      | none => simp [crawlFrom, huniv, Except.isOk, Except.toBool]
      | some u =>
        rw [huniv] at hhdr
        have hhdr2 : (parseAffiliation u).isOk = false := hhdr
        cases hpa : parseAffiliation u with
        | error e => simp [crawlFrom, huniv, hpa, Except.isOk, Except.toBool]
        | ok aff => rw [hpa] at hhdr2; exact Bool.noConfusion hhdr2
  | succ d ih =>
    intro p fuel acc fc hmid hhdr
    cases fuel with
    | zero => rfl
    | succ fuel =>
      cases huniv : (pages p).univ_info with
      | none => simp [crawlFrom, huniv, Except.isOk, Except.toBool]
      | some u =>
        cases hpa : parseAffiliation u with
        | error e => simp [crawlFrom, huniv, hpa, Except.isOk, Except.toBool]
        | ok aff =>
          have hrows := hmid p (Nat.le_refl p) (by omega)
          have hne : (pages p).rows.isEmpty = false := by
            cases hr : (pages p).rows with
            | nil => exact absurd hr hrows
            | cons x xs => rfl
          cases hex : extractRows aff (pages p).rows with
          | error e => simp [crawlFrom, huniv, hpa, hne, hex, Except.isOk, Except.toBool]
          | ok entries =>
            simp only [crawlFrom, huniv, hpa, hne, hex, Bool.false_eq_true,
              if_false]
            exact ih (p + 1) fuel (acc ++ entries) (fc + 1)
              (fun q h1 h2 => hmid q (by omega) (by omega))
              (by have h : p + 1 + d = p + (d + 1) := by omega
                  rw [h]; exact hhdr)

/-- C3 (counterexample): the crawl does not stop at the first page that
yields zero entries.  On `exPagesFiltered`, page 1 has a department row
(so the loop continues) but extracts zero entries; the claim predicts the
crawl stops there with an empty table, yet the code fetches three pages
and returns the entry of page 2. -/
theorem claim_C3_counterexample :
    pageEntries (exPagesFiltered 1) = Except.ok []
    ∧ (exPagesFiltered 1).rows ≠ []
    ∧ fetch_all_department exPagesFiltered 10 = (3, Except.ok [exEntryGood]) :=
  ⟨rfl, by decide, rfl⟩

/-- C3 (amended): the paginated crawl starts at page 1 and fetches
successive pages, stopping as soon as a fetched page contains zero
department rows (the emptiness check precedes the extraction filter, so
a page whose rows are all filtered out yields zero entries without
stopping the crawl); it fetches exactly pages 1..k, where page k is the
first row-free page, and returns the concatenation of the entries
extracted from pages 1..k-1. -/
theorem claim_C3_amended_crawl (pages : Nat → DeptPage) (k fuel : Nat)
    (hk : 1 ≤ k) (hfuel : k ≤ fuel)
    (hmid : ∀ q ∈ List.range' 1 (k - 1),
      (pages q).rows ≠ [] ∧ (pageEntries (pages q)).isOk = true)
    (hempty : (pages k).rows = [])
    (hhdr : headerOk (pages k) = true) :
    fetch_all_department pages fuel
      = (k, Except.ok ((List.range' 1 (k - 1)).flatMap
          (fun q => (pageEntries (pages q)).toOption.getD []))) := by
  unfold fetch_all_department
  have h1 : 1 + (k - 1) = k := by omega
  rw [crawlFrom_run pages (k - 1) 1 fuel [] 0 (by omega)
    (fun q h1 h2 => hmid q (List.mem_range'_1.mpr ⟨h1, h2⟩))
    (by rw [h1]; exact hempty) (by rw [h1]; exact hhdr)]
  have h2 : 0 + (k - 1) + 1 = k := by omega
  rw [h2, List.nil_append]

theorem claim_C3_amended_crawl_witness :
    (1 ≤ 3 ∧ 3 ≤ 10
     ∧ (∀ q ∈ List.range' 1 2,
         (exPages3 q).rows ≠ [] ∧ (pageEntries (exPages3 q)).isOk = true)
     ∧ (exPages3 3).rows = [] ∧ headerOk (exPages3 3) = true)
    ∧ fetch_all_department exPages3 10
        = (3, Except.ok ((List.range' 1 2).flatMap
            (fun q => (pageEntries (exPages3 q)).toOption.getD []))) :=
  ⟨⟨by decide, by decide, by decide, by decide, by decide⟩,
    claim_C3_amended_crawl exPages3 3 10 (by decide) (by decide) (by decide)
      (by decide) (by decide)⟩

/-- C8: on every fetched page the header block is parsed before the
zero-rows termination check runs, so the crawl terminates cleanly only
when the first row-free page still carries a complete header block; if
that page lacks it, the call raises instead of returning. -/
theorem claim_C8_header_before_empty_check (pages : Nat → DeptPage)
    (k fuel : Nat) (hk : 1 ≤ k)
    (hmid : ∀ q ∈ List.range' 1 (k - 1), (pages q).rows ≠ [])
    (hempty : (pages k).rows = [])
    (hhdr : headerOk (pages k) = false) :
    ∃ e, (fetch_all_department pages fuel).2 = Except.error e := by
  have hfail := crawlFrom_header_fail pages (k - 1) 1 fuel [] 0
    (fun q h1 h2 => hmid q (List.mem_range'_1.mpr ⟨h1, h2⟩))
    (by have h1 : 1 + (k - 1) = k := by omega
        rw [h1]; exact hhdr)
  unfold fetch_all_department
  cases hres : (crawlFrom pages fuel 1 [] 0).2 with
  | error e => exact ⟨e, rfl⟩
  | ok rows => rw [hres] at hfail; exact Bool.noConfusion hfail

theorem claim_C8_header_before_empty_check_witness :
    (1 ≤ 1 ∧ (∀ q ∈ List.range' 1 0, (exPagesNoHeader q).rows ≠ [])
     ∧ (exPagesNoHeader 1).rows = [] ∧ headerOk (exPagesNoHeader 1) = false)
    ∧ ∃ e, (fetch_all_department exPagesNoHeader 10).2 = Except.error e :=
  ⟨⟨by decide, by decide, by decide, by decide⟩,
    claim_C8_header_before_empty_check exPagesNoHeader 1 10 (by decide)
      (by decide) (by decide) (by decide)⟩

/-- C1: for every non-empty identifier sequence on which every
per-identifier fetch-and-parse succeeds, the dispatch pipeline (the
author workers as well as the hierarchical department workers) returns
exactly one record per identifier, and each returned record's `id` field
equals the identifier dispatched to the worker that produced it. -/
theorem claim_C1_dispatch_cardinality_and_ids
    (domain : String) (fetch : String → Option AuthorPage)
    (wfetch : String → Option DeptProfilePage) (aid : String)
    (codes : List String) (ids dids : List String)
    (hne : ids ≠ []) (hdne : dids ≠ [])
    (hsucc : ∀ i ∈ ids, (authorWorker domain fetch i).isSome)
    (hdsucc : ∀ i ∈ dids, (deptWorker domain wfetch aid codes i).isSome) :
    ((compact_list (run_thread (authorWorker domain fetch) ids)).length
        = ids.length
      ∧ (compact_list (run_thread (authorWorker domain fetch) ids)).map
          (fun r => Record.lookup r "id")
          = ids.map (fun i => some (Value.str i)))
    ∧ ((compact_list (run_thread (deptWorker domain wfetch aid codes) dids)).length
        = dids.length
      ∧ (compact_list (run_thread (deptWorker domain wfetch aid codes) dids)).map
          (fun r => Record.lookup r "id")
          = dids.map (fun i => some (Value.str i))) :=
  ⟨dispatch_map_id (authorWorker domain fetch) (fun i => some (Value.str i))
      (fun i r h => authorWorker_id_eq domain fetch i r h) ids hsucc,
   dispatch_map_id (deptWorker domain wfetch aid codes)
      (fun i => some (Value.str i))
      (fun i r h => deptWorker_id_eq domain wfetch aid codes i r h) dids hdsucc⟩

theorem claim_C1_dispatch_cardinality_and_ids_witness :
    ((["A1", "A2"] : List String) ≠ [] ∧ (["dh1"] : List String) ≠ []
     ∧ (∀ i ∈ (["A1", "A2"] : List String),
         (authorWorker "https://sinta.example" exFetchAll i).isSome)
     ∧ (∀ i ∈ (["dh1"] : List String),
         (deptWorker "https://sinta.example" exWFetchAll "42" ["uh"] i).isSome))
    ∧ (((compact_list (run_thread (authorWorker "https://sinta.example" exFetchAll)
            ["A1", "A2"])).length = (["A1", "A2"] : List String).length
        ∧ (compact_list (run_thread (authorWorker "https://sinta.example" exFetchAll)
            ["A1", "A2"])).map (fun r => Record.lookup r "id")
            = (["A1", "A2"] : List String).map (fun i => some (Value.str i)))
       ∧ ((compact_list (run_thread (deptWorker "https://sinta.example" exWFetchAll
              "42" ["uh"]) ["dh1"])).length = (["dh1"] : List String).length
          ∧ (compact_list (run_thread (deptWorker "https://sinta.example" exWFetchAll
              "42" ["uh"]) ["dh1"])).map (fun r => Record.lookup r "id")
              = (["dh1"] : List String).map (fun i => some (Value.str i)))) :=
  ⟨⟨by decide, by decide, by decide, by decide⟩,
    claim_C1_dispatch_cardinality_and_ids "https://sinta.example" exFetchAll
      exWFetchAll "42" ["uh"] ["A1", "A2"] ["dh1"] (by decide) (by decide)
      (by decide) (by decide)⟩

/-- C4: on a cache miss followed by a second call with no deletion in
between, only the first call crawls (the second performs zero
enumeration-page fetches), the crawled table is persisted under the
parent key, and both calls operate on that identical table, producing
identical results. -/
theorem claim_C4_cache_idempotent (domain : String) (pages : Nat → DeptPage)
    (fuel : Nat) (wfetch : String → Option DeptProfilePage)
    (dids : List String) (aff mode : String) (store : CacheStore)
    (rows : List DeptRow) (fc : Nat)
    (hmiss : CacheStore.load store aff = none)
    (hcrawl : fetch_all_department pages fuel = (fc, Except.ok rows))
    (hrows : rows ≠ []) :
    (department domain pages fuel wfetch dids aff mode store).2.1 = fc
    ∧ (department domain pages fuel wfetch dids aff mode
        (department domain pages fuel wfetch dids aff mode store).1).2.1 = 0
    ∧ CacheStore.load (department domain pages fuel wfetch dids aff mode store).1 aff
        = some rows
    ∧ (department domain pages fuel wfetch dids aff mode
        (department domain pages fuel wfetch dids aff mode store).1).1
        = (department domain pages fuel wfetch dids aff mode store).1
    ∧ (department domain pages fuel wfetch dids aff mode
        (department domain pages fuel wfetch dids aff mode store).1).2.2
        = (department domain pages fuel wfetch dids aff mode store).2.2 := by
  have hload2 : CacheStore.load (CacheStore.save store aff rows) aff = some rows := by
    unfold CacheStore.load CacheStore.save
    simp [List.lookup]
  have h1 : department domain pages fuel wfetch dids aff mode store
      = (CacheStore.save store aff rows, fc,
         departmentRest domain wfetch dids aff mode rows) := by
    unfold department
    simp only [hmiss, hcrawl]
    rw [if_neg hrows]
  have h2 : department domain pages fuel wfetch dids aff mode
        (CacheStore.save store aff rows)
      = (CacheStore.save store aff rows, 0,
         departmentRest domain wfetch dids aff mode rows) := by
    unfold department
    rw [hload2]
  refine ⟨?_, ?_, ?_, ?_, ?_⟩ <;> simp only [h1, h2] <;>
    first
    | rfl
    | exact hload2

theorem claim_C4_cache_idempotent_witness :
    (CacheStore.load [] "AF1" = none
     ∧ fetch_all_department exPages3 10 = (3, Except.ok [exEntryGood, exEntryGood2])
     ∧ ([exEntryGood, exEntryGood2] : List DeptRow) ≠ [])
    ∧ ((department "https://sinta.example" exPages3 10 exWFetchAll ["55001"]
          "AF1" "list" []).2.1 = 3
       ∧ (department "https://sinta.example" exPages3 10 exWFetchAll ["55001"]
            "AF1" "list"
            (department "https://sinta.example" exPages3 10 exWFetchAll ["55001"]
              "AF1" "list" []).1).2.1 = 0
       ∧ CacheStore.load (department "https://sinta.example" exPages3 10 exWFetchAll
            ["55001"] "AF1" "list" []).1 "AF1"
            = some [exEntryGood, exEntryGood2]
       ∧ (department "https://sinta.example" exPages3 10 exWFetchAll ["55001"]
            "AF1" "list"
            (department "https://sinta.example" exPages3 10 exWFetchAll ["55001"]
              "AF1" "list" []).1).1
           = (department "https://sinta.example" exPages3 10 exWFetchAll ["55001"]
              "AF1" "list" []).1
       ∧ (department "https://sinta.example" exPages3 10 exWFetchAll ["55001"]
            "AF1" "list"
            (department "https://sinta.example" exPages3 10 exWFetchAll ["55001"]
              "AF1" "list" []).1).2.2
           = (department "https://sinta.example" exPages3 10 exWFetchAll ["55001"]
              "AF1" "list" []).2.2) :=
  ⟨⟨rfl, rfl, by decide⟩,
    claim_C4_cache_idempotent "https://sinta.example" exPages3 10 exWFetchAll
      ["55001"] "AF1" "list" [] [exEntryGood, exEntryGood2] 3 rfl rfl (by decide)⟩

/-- C5: the row filter selects exactly the cached rows whose
human-readable id is among the caller-supplied ids, and a selection that
comes up empty makes the whole call fail with the fatal
no-matching-entries assertion rather than returning an empty success. -/
theorem claim_C5_row_filter (domain : String) (pages : Nat → DeptPage)
    (fuel : Nat) (wfetch : String → Option DeptProfilePage)
    (table : List DeptRow) (dids : List String) (aff mode : String)
    (store : CacheStore)
    (hhit : CacheStore.load store aff = some table) :
    (∀ r, r ∈ filterSubset table dids ↔ r ∈ table ∧ r.department_id ∈ dids)
    ∧ (filterSubset table dids = [] →
        (department domain pages fuel wfetch dids aff mode store).2.2
          = Except.error "No departments found for the given department IDs.") := by
  constructor
  · intro r
    simp [filterSubset, listify, List.mem_filter, List.contains]
  · intro hempt
    have hd : department domain pages fuel wfetch dids aff mode store
        = (store, 0, departmentRest domain wfetch dids aff mode table) := by
      unfold department
      rw [hhit]
    rw [hd]
    show departmentRest domain wfetch dids aff mode table = _
    unfold departmentRest
    rw [if_pos hempt]

theorem claim_C5_row_filter_witness :
    (CacheStore.load [("AF1", exTable3)] "AF1" = some exTable3
     ∧ (filterSubset exTable3 ["A", "C"]).length = 2)
    ∧ ((∀ r, r ∈ filterSubset exTable3 ["Z"] ↔ r ∈ exTable3 ∧ r.department_id ∈ ["Z"])
       ∧ (filterSubset exTable3 ["Z"] = [] →
           (department "https://sinta.example" exPages3 10 exWFetchAll ["Z"]
             "AF1" "dict" [("AF1", exTable3)]).2.2
             = Except.error "No departments found for the given department IDs.")) :=
  ⟨⟨rfl, by decide⟩,
    claim_C5_row_filter "https://sinta.example" exPages3 10 exWFetchAll exTable3
      ["Z"] "AF1" "dict" [("AF1", exTable3)] rfl⟩

/-- C9: on a successful hierarchical lookup, each returned record's `id`
is the URL-derived hashed id of the cache row that matched, in row
order; the caller-supplied human-readable ids only filter rows and (as
long as no row's hashed id collides with them) never appear as a
returned record's `id`. -/
theorem claim_C9_returned_ids_are_hashes (domain : String)
    (pages : Nat → DeptPage) (fuel : Nat)
    (wfetch : String → Option DeptProfilePage)
    (table : List DeptRow) (dids : List String) (aff : String)
    (store : CacheStore)
    (hhit : CacheStore.load store aff = some table)
    (hsub : ¬(filterSubset table dids = []))
    (hsucc : ∀ h ∈ (filterSubset table dids).map DeptRow.department_id_hash,
      (deptWorker domain wfetch aff
        (uniqueFirst ((filterSubset table dids).map DeptRow.univ_id_hash))
        h).isSome) :
    ∃ rs, (department domain pages fuel wfetch dids aff "list" store).2.2
        = Except.ok (Formatted.recs rs)
      ∧ rs.map (fun r => Record.lookup r "id")
          = (filterSubset table dids).map
              (fun r => some (Value.str r.department_id_hash))
      ∧ ((∀ r ∈ filterSubset table dids, r.department_id_hash ∉ dids) →
          ∀ rec ∈ rs, ∀ i ∈ dids, Record.lookup rec "id" ≠ some (Value.str i)) := by
  have hd : department domain pages fuel wfetch dids aff "list" store
      = (store, 0, departmentRest domain wfetch dids aff "list" table) := by
    unfold department
    rw [hhit]
  have hrest : departmentRest domain wfetch dids aff "list" table
      = format_output (compact_list (run_thread
          (deptWorker domain wfetch aff
            (uniqueFirst ((filterSubset table dids).map DeptRow.univ_id_hash)))
          ((filterSubset table dids).map DeptRow.department_id_hash))) "list" := by
    unfold departmentRest
    rw [if_neg hsub]
    rfl
  obtain ⟨hlen, hmap⟩ := dispatch_map_id
    (deptWorker domain wfetch aff
      (uniqueFirst ((filterSubset table dids).map DeptRow.univ_id_hash)))
    (fun h => some (Value.str h))
    (fun i r h => deptWorker_id_eq domain wfetch aff _ i r h)
    ((filterSubset table dids).map DeptRow.department_id_hash) hsucc
  refine ⟨compact_list (run_thread
      (deptWorker domain wfetch aff
        (uniqueFirst ((filterSubset table dids).map DeptRow.univ_id_hash)))
      ((filterSubset table dids).map DeptRow.department_id_hash)), ?_, ?_, ?_⟩
  · rw [hd]
    show departmentRest domain wfetch dids aff "list" table = _
    rw [hrest]
    rfl
  · rw [hmap, List.map_map]
    rfl
  · intro hnot rec hrec i hi heq
    have hmem : Record.lookup rec "id" ∈ List.map (fun h => some (Value.str h))
        ((filterSubset table dids).map DeptRow.department_id_hash) := by
      rw [← hmap]
      exact List.mem_map_of_mem _ hrec
    rw [List.map_map] at hmem
    obtain ⟨r', hr', hr'eq⟩ := List.mem_map.mp hmem
    simp only [Function.comp_apply] at hr'eq
    rw [heq] at hr'eq
    have hih : r'.department_id_hash = i := Value.str.inj (Option.some.inj hr'eq)
    exact hnot r' hr' (hih ▸ hi)

theorem claim_C9_returned_ids_are_hashes_witness :
    (CacheStore.load [("AF1", [mkDeptRow "A" "ha" "uh"])] "AF1"
        = some [mkDeptRow "A" "ha" "uh"]
     ∧ ¬(filterSubset [mkDeptRow "A" "ha" "uh"] ["A"] = [])
     ∧ (∀ h ∈ (filterSubset [mkDeptRow "A" "ha" "uh"] ["A"]).map
            DeptRow.department_id_hash,
         (deptWorker "https://sinta.example" exWFetchAll "AF1"
           (uniqueFirst ((filterSubset [mkDeptRow "A" "ha" "uh"] ["A"]).map
             DeptRow.univ_id_hash)) h).isSome))
    ∧ ∃ rs, (department "https://sinta.example" exPages3 10 exWFetchAll ["A"]
          "AF1" "list" [("AF1", [mkDeptRow "A" "ha" "uh"])]).2.2
        = Except.ok (Formatted.recs rs)
      ∧ rs.map (fun r => Record.lookup r "id")
          = (filterSubset [mkDeptRow "A" "ha" "uh"] ["A"]).map
              (fun r => some (Value.str r.department_id_hash))
      ∧ ((∀ r ∈ filterSubset [mkDeptRow "A" "ha" "uh"] ["A"],
            r.department_id_hash ∉ (["A"] : List String)) →
          ∀ rec ∈ rs, ∀ i ∈ (["A"] : List String),
            Record.lookup rec "id" ≠ some (Value.str i)) :=
  ⟨⟨rfl, by decide, by decide⟩,
    claim_C9_returned_ids_are_hashes "https://sinta.example" exPages3 10
      exWFetchAll [mkDeptRow "A" "ha" "uh"] ["A"] "AF1"
      [("AF1", [mkDeptRow "A" "ha" "uh"])] rfl (by decide) (by decide)⟩

/-- C10: the row filter is a membership test, so duplicated
human-readable ids select each matching cache row at most once:
duplicating (or deduplicating) the caller's id list leaves the selected
subset unchanged, the subset is a sublist of the table, and no row
occurs in it more often than in the table itself. -/
theorem claim_C10_duplicate_ids_implicitly_deduplicated
    (table : List DeptRow) (dids : List String) :
    filterSubset table (dids ++ dids) = filterSubset table dids
    ∧ filterSubset table dids.dedup = filterSubset table dids
    ∧ (filterSubset table dids).Sublist table
    ∧ ∀ r, (filterSubset table dids).count r ≤ table.count r := by
  have hc : ∀ l1 l2 : List String, (∀ x, l1.contains x = l2.contains x) →
      filterSubset table l1 = filterSubset table l2 := by
    intro l1 l2 h
    unfold filterSubset listify
    exact List.filter_congr (fun r _ => h r.department_id)
  refine ⟨?_, ?_, ?_, ?_⟩
  · exact hc _ _ (fun x => by simp [List.contains, List.mem_append])
  · exact hc _ _ (fun x => by simp [List.contains, List.mem_dedup])
  · exact List.filter_sublist _
  · intro r
    exact List.Sublist.count_le (List.filter_sublist _) r

end Sinta
